import Mathlib

set_option autoImplicit false
set_option linter.unusedVariables false

/-!
Shallow embedding of the four HEIC batch utilities of this repository:
`heic_to_jpg.py`, `sanitize_heic_to_jpg.py`, `heic_strip_and_convert_to_jpg.py`
and `strip_heic_metadata.py`.

The filesystem is an association list from structured paths to abstract image
files.  Image decode/encode and the external ExifTool invocation are opaque
collaborators; their per-file behaviour (decodable? encodable? what the tool
invocation does) is data carried by the file itself, so every run is a pure,
executable function of the invocation arguments and the initial world.
Each per-file operation returns the new filesystem, a trace of events
(tool invocations, decodes, writes, unlinks, printed lines) and an optional
Python exception.
-/

/-- A filesystem path, split the way `pathlib` views it: the components of the
parent directory, the stem, and the suffix (final extension including its
leading dot, or `""` for no extension). -/
structure FsPath where
  parent : List String
  stem : String
  suffix : String
deriving DecidableEq, Repr

/-- `pathlib.PurePath.name`: stem plus suffix. -/
def FsPath.name (p : FsPath) : String := p.stem ++ p.suffix

/-- `pathlib.PurePath.with_suffix`: replace the final extension. -/
def with_suffix (p : FsPath) (s : String) : FsPath := { p with suffix := s }

/-- A Python exception as the scripts distinguish them: the external tool's
`subprocess.CalledProcessError` versus any other exception
(decode error, encode error, `PermissionError`, ...). -/
inductive PyExc where
  | calledProcessError (stderr : String)
  | otherExc (msg : String)
deriving DecidableEq, Repr

/-- The diagnostic text of an exception (`str(exc)` / its stderr). -/
def PyExc.msg : PyExc → String
  | .calledProcessError s => s
  | .otherExc m => m

/-- Abstract content of a file on disk.  `pixels` stands for the (opaque)
pixel data, `exif` for the embedded metadata tags (tag id, value).
`decodable` is false for a corrupt file (`Image.open`/decode raises),
`encodeOk` is false when re-encoding this image raises, and `stripRes` is the
oracle for what one external ExifTool invocation on this file does
(`none` = succeeds, otherwise the exception it raises at the call site). -/
structure ImageFile where
  pixels : Nat
  exif : List (Nat × Nat)
  decodable : Bool
  encodeOk : Bool
  stripRes : Option PyExc
deriving DecidableEq, Repr

/-- The filesystem: a finite map from paths to regular files, as an
association list. -/
abbrev FS := List (FsPath × ImageFile)

/-- Look a path up in the filesystem. -/
def FS.lookup : FS → FsPath → Option ImageFile
  | [], _ => none
  | (q, im) :: rest, p => if q = p then some im else FS.lookup rest p

/-- Does a path exist (as a regular file)? -/
def FS.existsPath (fs : FS) (p : FsPath) : Bool := (FS.lookup fs p).isSome

/-- `unlink`: remove a file. -/
def FS.eraseFile : FS → FsPath → FS
  | [], _ => []
  | (q, im) :: rest, p =>
      if q = p then FS.eraseFile rest p else (q, im) :: FS.eraseFile rest p

/-- Replace the content stored at an existing path. -/
def FS.replaceFile : FS → FsPath → ImageFile → FS
  | [], _, _ => []
  | (q, j) :: rest, p, im =>
      if q = p then (p, im) :: FS.replaceFile rest p im
      else (q, j) :: FS.replaceFile rest p im

/-- Write a file: overwrite the existing entry, or create a new one. -/
def FS.insertFile (fs : FS) (p : FsPath) (im : ImageFile) : FS :=
  if FS.existsPath fs p then FS.replaceFile fs p im else fs ++ [(p, im)]

/-- A line printed by a script. -/
inductive Line where
  | skipLine (dstName : String)
  | okLine (srcName dstName : String)
  | deletedLine (srcName : String)
  | errorLine (who msg : String)
  | strippedLine (rel : String)
deriving DecidableEq, Repr

/-- An observable event of a run: a decode (`Image.open`), a JPEG write
(`save`), an `unlink`, an external-tool invocation, or a printed line. -/
inductive Ev where
  | openEv (p : FsPath)
  | saveEv (p : FsPath)
  | unlinkEv (p : FsPath)
  | toolEv (p : FsPath)
  | outLine (l : Line)
deriving DecidableEq, Repr

/-- Python `str.lstrip(".")`: drop every leading dot. -/
def lstripDots (s : String) : String :=
  String.mk (s.toList.dropWhile (fun c => c == '.'))

/-- An ASCII whitespace character, as Python `str.strip()` removes them. -/
def isPySpace (c : Char) : Bool :=
  c == ' ' || c == '\t' || c == '\n' || c == '\r'

/-- Python `str.strip()`: drop leading and trailing whitespace. -/
def pyTrim (s : String) : String :=
  String.mk
    (((s.toList.dropWhile isPySpace).reverse.dropWhile isPySpace).reverse)

/-- Python `str.lower()`. -/
def pyLower (s : String) : String := String.mk (s.toList.map Char.toLower)

/-- Split a character list at every separator occurrence (Python
`str.split(sep)`: adjacent separators produce empty fields). -/
def splitCharsOn (sep : Char) : List Char → List (List Char)
  | [] => [[]]
  | c :: rest =>
    match splitCharsOn sep rest with
    | [] => [[c]]
    | g :: gs => if c == sep then [] :: g :: gs else (c :: g) :: gs

/-- Python `s.split(",")`. -/
def pySplitComma (s : String) : List String :=
  (splitCharsOn ',' s.toList).map String.mk

/-- The extension-set normalisation shared by all four scripts:
`{e.strip().lower().lstrip(".") for e in ext.split(",") if e.strip()}`. -/
def parseExts (ext : String) : List String :=
  (((pySplitComma ext).filter (fun e => pyTrim e != "")).map
    (fun e => lstripDots (pyLower (pyTrim e)))).dedup

/-- Is `root` an ancestor-or-self directory of `p` (component-wise prefix)? -/
def underDir : List String → List String → Bool
  | [], _ => true
  | _ :: _, [] => false
  | a :: r, b :: p => a == b && underDir r p

/-- The `discover` generator shared verbatim by all four scripts: yield the
regular files (in filesystem order) whose parent is the root (non-recursive)
or below it (recursive) and whose suffix, lower-cased and with leading dots
stripped, is in the extension set. -/
def discover (root : List String) (exts : List String) (recursive : Bool)
    (fs : FS) : List FsPath :=
  (fs.map Prod.fst).filter (fun p =>
    (if recursive then underDir root p.parent else p.parent == root) &&
    exts.contains (lstripDots (pyLower p.suffix)))

/-- `ImageOps.exif_transpose`: present the pixel data upright and drop the
orientation tag (EXIF tag 0x0112). -/
def exif_transpose (im : ImageFile) : ImageFile :=
  { im with exif := im.exif.filter (fun tv => tv.1 != 0x0112) }

/-- A pre-processing (usage/validation) failure of a run. -/
inductive UsageError where
  | dirMissing
  | qualityRange
  | emptyExts
  | exifToolMissing
deriving DecidableEq, Repr

/-- The world a run starts from: the existing directories, the files, and
whether ExifTool is on PATH. -/
structure World where
  dirs : List (List String)
  files : FS
  exifToolOnPath : Bool
deriving DecidableEq, Repr

/-- The observable outcome of one invocation of a script: the usage error it
stopped with (if any), the uncaught exception it aborted with (if any), the
final filesystem, the event trace, the success counter, the discovered files
and the final summary line (if one was printed). -/
structure RunResult where
  err : Option UsageError
  exc : Option PyExc
  fs : FS
  trace : List Ev
  total : Nat
  discovered : List FsPath
  summaryLine : Option String
deriving DecidableEq, Repr

/-- The result of halting with a usage error before the per-file loop:
nothing was discovered, traced or modified. -/
def usageExit (w : World) (e : UsageError) : RunResult :=
  { err := some e, exc := none, fs := w.files, trace := [], total := 0,
    discovered := [], summaryLine := none }

/-- The `for src in discover(...): try: step(src); total += 1; except: print [ERROR]`
loop shared by the three convert variants: one `step` per file, every
exception of `step` caught at file granularity and turned into an error line
by `fmt`, the counter incremented exactly when `step` raised nothing. -/
def runLoop (step : FsPath → FS → FS × List Ev × Option PyExc)
    (fmt : FsPath → PyExc → Line) : List FsPath → FS → FS × List Ev × Nat
  | [], fs => (fs, [], 0)
  | f :: rest, fs =>
    let r1 := step f fs
    let r2 := runLoop step fmt rest r1.1
    match r1.2.2 with
    | none => (r2.1, r1.2.1 ++ r2.2.1, r2.2.2 + 1)
    | some e => (r2.1, r1.2.1 ++ (Ev.outLine (fmt f e) :: r2.2.1), r2.2.2)

namespace HeicToJpg

/-- `PIL.ExifTags.TAGS`: the fixed table mapping integer EXIF tag ids to
their names (a representative excerpt; every key is an integer and every
value a string, which is all the development relies on). -/
def TAGS : List (Nat × String) :=
  [(0x0100, "ImageWidth"), (0x0101, "ImageLength"), (0x010F, "Make"),
   (0x0110, "Model"), (0x0112, "Orientation"), (0x0131, "Software"),
   (0x0132, "DateTime"), (0x8769, "ExifOffset"), (0x8825, "GPSInfo"),
   (0x9003, "DateTimeOriginal"), (0x9004, "DateTimeDigitized"),
   (0x9286, "UserComment"), (0xA430, "CameraOwnerName")]

/-- A key of a Python `dict`: the scripts mix integer and string keys, and a
lookup only hits when both the kind and the payload agree (Python `==`). -/
inductive PyKey where
  | intK (n : Nat)
  | strK (s : String)
deriving DecidableEq, Repr

/-- `TAG_MAP = {v: k for k, v in ExifTags.TAGS.items()}`: the inverted
table, keyed by the (string) tag names, valued by the (integer) tag ids. -/
def TAG_MAP : List (PyKey × PyKey) :=
  TAGS.map (fun kv => (PyKey.strK kv.2, PyKey.intK kv.1))

/-- Python `dict.get`: first entry with an equal key, else `None`. -/
def dictGet : List (PyKey × PyKey) → PyKey → Option PyKey
  | [], _ => none
  | (a, b) :: rest, k => if a = k then some b else dictGet rest k

/-- `KEEP_TAG_NAMES = {"DateTimeOriginal", "CreateDate", "DateTime"}`. -/
def KEEP_TAG_NAMES : List String := ["DateTimeOriginal", "CreateDate", "DateTime"]

/-- Python `x in KEEP_TAG_NAMES` where `x` is `TAG_MAP.get(tag_id)`:
true only for a string member of the set (`None` or an int is never in). -/
def keyInKeepTagNames : Option PyKey → Bool
  | some (PyKey.strK s) => KEEP_TAG_NAMES.contains s
  | _ => false

/-- `build_exif_bytes`: `None` when the source has no EXIF; otherwise copy
into a fresh empty container the entries whose `TAG_MAP.get(tag_id)` is in
`KEEP_TAG_NAMES`, and return `None` when the fresh container stayed empty. -/
def build_exif_bytes (orig : List (Nat × Nat)) : Option (List (Nat × Nat)) :=
  if orig.isEmpty then none
  else
    let newExif := orig.filter
      (fun tv => keyInKeepTagNames (dictGet TAG_MAP (PyKey.intK tv.1)))
    if newExif.isEmpty then none else some newExif

/-- `heic_to_jpg.convert`: skip when the destination exists; otherwise open
(decode), transpose, build the preserved EXIF, save as JPEG at the given
quality, and unlink the source when `delete` is set.  The returned exception,
when some, is what escaped the body to the caller's `except` clause. -/
def convert (src : FsPath) (quality : Int) (delete : Bool) (fs : FS) :
    FS × List Ev × Option PyExc :=
  let dst := with_suffix src ".jpg"
  if FS.existsPath fs dst then
    (fs, [Ev.outLine (Line.skipLine dst.name)], none)
  else
    match FS.lookup fs src with
    | none => (fs, [Ev.openEv src], some (PyExc.otherExc "No such file or directory"))
    | some im =>
      if im.decodable then
        let im2 := exif_transpose im
        let exifBytes := build_exif_bytes im2.exif
        if im.encodeOk then
          let outIm : ImageFile :=
            { pixels := im2.pixels, exif := exifBytes.getD [],
              decodable := true, encodeOk := true, stripRes := none }
          let fs1 := FS.insertFile fs dst outIm
          let evs := [Ev.openEv src, Ev.saveEv dst,
                      Ev.outLine (Line.okLine src.name dst.name)]
          if delete then
            (FS.eraseFile fs1 src,
             evs ++ [Ev.unlinkEv src, Ev.outLine (Line.deletedLine src.name)],
             none)
          else (fs1, evs, none)
        else (fs, [Ev.openEv src], some (PyExc.otherExc "cannot write image"))
      else (fs, [Ev.openEv src], some (PyExc.otherExc "cannot identify image file"))

/-- The per-file loop of `heic_to_jpg.main`. -/
def processLoop (quality : Int) (delete : Bool) (files : List FsPath)
    (fs : FS) : FS × List Ev × Nat :=
  runLoop (fun f fs0 => convert f quality delete fs0)
    (fun f e => Line.errorLine f.name e.msg) files fs

/-- The final summary line of `heic_to_jpg.main`. -/
def summary (total : Nat) : String :=
  if total = 0 then "No matching files converted (review [ERROR] lines)."
  else "Done. Converted " ++ toString total ++ " file" ++
    (if total != 1 then "s" else "") ++ "."

/-- The command line of `heic_to_jpg.py`. -/
structure Args where
  directory : List String
  recursive : Bool
  quality : Int
  ext : String
  delete : Bool
deriving DecidableEq, Repr

/-- `heic_to_jpg.main`: validate directory, quality bounds, extension set;
then discover, loop, and print the summary. -/
def main (args : Args) (w : World) : RunResult :=
  if (w.dirs.contains args.directory) = false then
    usageExit w UsageError.dirMissing
  else if ¬ (1 ≤ args.quality ∧ args.quality ≤ 100) then
    usageExit w UsageError.qualityRange
  else
    let exts := parseExts args.ext
    if exts.isEmpty then usageExit w UsageError.emptyExts
    else
      let files := discover args.directory exts args.recursive w.files
      let r := processLoop args.quality args.delete files w.files
      { err := none, exc := none, fs := r.1, trace := r.2.1, total := r.2.2,
        discovered := files, summaryLine := some (summary r.2.2) }

end HeicToJpg

namespace Sanitize

/-- `sanitize_heic_to_jpg.convert`: like `heic_to_jpg.convert` but no `exif=`
argument is ever passed to `save`, so the output carries no metadata. -/
def convert (src : FsPath) (quality : Int) (delete : Bool) (fs : FS) :
    FS × List Ev × Option PyExc :=
  let dst := with_suffix src ".jpg"
  if FS.existsPath fs dst then
    (fs, [Ev.outLine (Line.skipLine dst.name)], none)
  else
    match FS.lookup fs src with
    | none => (fs, [Ev.openEv src], some (PyExc.otherExc "No such file or directory"))
    | some im =>
      if im.decodable then
        let im2 := exif_transpose im
        if im.encodeOk then
          let outIm : ImageFile :=
            { pixels := im2.pixels, exif := [],
              decodable := true, encodeOk := true, stripRes := none }
          let fs1 := FS.insertFile fs dst outIm
          let evs := [Ev.openEv src, Ev.saveEv dst,
                      Ev.outLine (Line.okLine src.name dst.name)]
          if delete then
            (FS.eraseFile fs1 src,
             evs ++ [Ev.unlinkEv src, Ev.outLine (Line.deletedLine src.name)],
             none)
          else (fs1, evs, none)
        else (fs, [Ev.openEv src], some (PyExc.otherExc "cannot write image"))
      else (fs, [Ev.openEv src], some (PyExc.otherExc "cannot identify image file"))

/-- The per-file loop of `sanitize_heic_to_jpg.main`. -/
def processLoop (quality : Int) (delete : Bool) (files : List FsPath)
    (fs : FS) : FS × List Ev × Nat :=
  runLoop (fun f fs0 => convert f quality delete fs0)
    (fun f e => Line.errorLine f.name e.msg) files fs

/-- The final summary line of `sanitize_heic_to_jpg.main` (same text as
`heic_to_jpg`). -/
def summary (total : Nat) : String :=
  if total = 0 then "No matching files converted (review [ERROR] lines)."
  else "Done. Converted " ++ toString total ++ " file" ++
    (if total != 1 then "s" else "") ++ "."

/-- The command line of `sanitize_heic_to_jpg.py`. -/
structure Args where
  directory : List String
  recursive : Bool
  quality : Int
  delete : Bool
  ext : String
deriving DecidableEq, Repr

/-- `sanitize_heic_to_jpg.main`. -/
def main (args : Args) (w : World) : RunResult :=
  if (w.dirs.contains args.directory) = false then
    usageExit w UsageError.dirMissing
  else if ¬ (1 ≤ args.quality ∧ args.quality ≤ 100) then
    usageExit w UsageError.qualityRange
  else
    let exts := parseExts args.ext
    if exts.isEmpty then usageExit w UsageError.emptyExts
    else
      let files := discover args.directory exts args.recursive w.files
      let r := processLoop args.quality args.delete files w.files
      { err := none, exc := none, fs := r.1, trace := r.2.1, total := r.2.2,
        discovered := files, summaryLine := some (summary r.2.2) }

end Sanitize

namespace StripConvert

/-- `heic_strip_and_convert_to_jpg.strip_all_metadata`:
`exiftool -overwrite_original -all= FILE` — wipe every tag in place.  On a
missing file ExifTool exits non-zero, i.e. `CalledProcessError`; otherwise
the file's oracle decides whether the invocation raises. -/
def strip_all_metadata (file : FsPath) (fs : FS) : FS × List Ev × Option PyExc :=
  match FS.lookup fs file with
  | none => (fs, [Ev.toolEv file], some (PyExc.calledProcessError "File not found"))
  | some im =>
    match im.stripRes with
    | some e => (fs, [Ev.toolEv file], some e)
    | none => (FS.insertFile fs file { im with exif := [] }, [Ev.toolEv file], none)

/-- `heic_strip_and_convert_to_jpg.convert_to_jpg`: on an existing
destination print `[SKIP]` and, when deletion is on, still unlink the source
(`missing_ok=True`); otherwise decode, transpose, save (no metadata passed)
and unlink the source when deletion is on. -/
def convert_to_jpg (src : FsPath) (quality : Int) (deleteOriginal : Bool)
    (fs : FS) : FS × List Ev × Option PyExc :=
  let dst := with_suffix src ".jpg"
  if FS.existsPath fs dst then
    if deleteOriginal then
      (FS.eraseFile fs src,
       [Ev.outLine (Line.skipLine dst.name), Ev.unlinkEv src], none)
    else (fs, [Ev.outLine (Line.skipLine dst.name)], none)
  else
    match FS.lookup fs src with
    | none => (fs, [Ev.openEv src], some (PyExc.otherExc "No such file or directory"))
    | some im =>
      if im.decodable then
        let im2 := exif_transpose im
        if im.encodeOk then
          let outIm : ImageFile :=
            { pixels := im2.pixels, exif := [],
              decodable := true, encodeOk := true, stripRes := none }
          let fs1 := FS.insertFile fs dst outIm
          let evs := [Ev.openEv src, Ev.saveEv dst,
                      Ev.outLine (Line.okLine src.name dst.name)]
          if deleteOriginal then
            (FS.eraseFile fs1 src,
             evs ++ [Ev.unlinkEv src, Ev.outLine (Line.deletedLine src.name)],
             none)
          else (fs1, evs, none)
        else (fs, [Ev.openEv src], some (PyExc.otherExc "cannot write image"))
      else (fs, [Ev.openEv src], some (PyExc.otherExc "cannot identify image file"))

/-- The body of one iteration of the `heic_strip_and_convert_to_jpg.main`
loop: strip in place first, then convert; the first exception escapes. -/
def step (quality : Int) (deleteOriginal : Bool) (f : FsPath) (fs : FS) :
    FS × List Ev × Option PyExc :=
  let r1 := strip_all_metadata f fs
  match r1.2.2 with
  | some e => (r1.1, r1.2.1, some e)
  | none =>
    let r2 := convert_to_jpg f quality deleteOriginal r1.1
    (r2.1, r1.2.1 ++ r2.2.1, r2.2.2)

/-- The `[ERROR]` formatting of `heic_strip_and_convert_to_jpg.main`:
ExifTool failures are reported with their stderr, others generically. -/
def fmtError (f : FsPath) (e : PyExc) : Line :=
  match e with
  | PyExc.calledProcessError m => Line.errorLine f.name ("ExifTool → " ++ m)
  | PyExc.otherExc m => Line.errorLine f.name m

/-- The per-file loop of `heic_strip_and_convert_to_jpg.main`. -/
def processLoop (quality : Int) (deleteOriginal : Bool) (files : List FsPath)
    (fs : FS) : FS × List Ev × Nat :=
  runLoop (step quality deleteOriginal) fmtError files fs

/-- The final summary line of `heic_strip_and_convert_to_jpg.main`. -/
def summary (total : Nat) : String :=
  if total = 0 then "No matching files processed — check [ERROR] messages above."
  else "Done. Processed " ++ toString total ++ " file" ++
    (if total != 1 then "s" else "") ++ "."

/-- The command line of `heic_strip_and_convert_to_jpg.py`: deletion is the
default, `--keep` turns it off. -/
structure Args where
  directory : List String
  recursive : Bool
  quality : Int
  keep : Bool
  ext : String
deriving DecidableEq, Repr

/-- `heic_strip_and_convert_to_jpg.main`: validate directory, quality,
ExifTool presence, extension set; then discover and loop. -/
def main (args : Args) (w : World) : RunResult :=
  if (w.dirs.contains args.directory) = false then
    usageExit w UsageError.dirMissing
  else if ¬ (1 ≤ args.quality ∧ args.quality ≤ 100) then
    usageExit w UsageError.qualityRange
  else if w.exifToolOnPath = false then
    usageExit w UsageError.exifToolMissing
  else
    let exts := parseExts args.ext
    if exts.isEmpty then usageExit w UsageError.emptyExts
    else
      let files := discover args.directory exts args.recursive w.files
      let r := processLoop args.quality (!args.keep) files w.files
      { err := none, exc := none, fs := r.1, trace := r.2.1, total := r.2.2,
        discovered := files, summaryLine := some (summary r.2.2) }

end StripConvert

/-- Join path components with slashes, as `str(Path)` renders them. -/
def joinPath : List String → String
  | [] => ""
  | [c] => c
  | c :: rest => c ++ "/" ++ joinPath rest

/-- `str(p)` for a file path. -/
def pathStr (p : FsPath) : String := joinPath (p.parent ++ [p.name])

/-- `p.relative_to(root)` rendered as a string, for a `p` discovered under
`root`. -/
def relStr (root : List String) (p : FsPath) : String :=
  joinPath (p.parent.drop root.length ++ [p.name])

/-- Lexicographic comparison of character lists by code point, as Python
compares strings. -/
def charListLe : List Char → List Char → Bool
  | [], _ => true
  | _ :: _, [] => false
  | a :: as, b :: bs =>
    if a.val < b.val then true
    else if b.val < a.val then false
    else charListLe as bs

/-- Python string `<=`. -/
def pyStrLe (s t : String) : Bool := charListLe s.toList t.toList

/-- Insert a string into a sorted list (ascending). -/
def insertSorted (s : String) : List String → List String
  | [] => [s]
  | t :: rest =>
    if pyStrLe s t then s :: t :: rest else t :: insertSorted s rest

/-- Python `sorted` on a list of strings. -/
def sortStrings : List String → List String
  | [] => []
  | s :: rest => insertSorted s (sortStrings rest)

/-- Python `", ".join(l)`. -/
def joinComma : List String → String
  | [] => ""
  | [s] => s
  | s :: rest => s ++ ", " ++ joinComma rest

/-- Python `str(b)` for a boolean. -/
def pyBool (b : Bool) : String := if b then "True" else "False"

namespace StripMeta

/-- The ExifTool tag ids of `-datetimeoriginal`, `-createdate` and
`-modifydate` (EXIF DateTimeOriginal 0x9003, CreateDate/DateTimeDigitized
0x9004, ModifyDate/DateTime 0x0132). -/
def EXIFTOOL_KEEP_TAGS : List Nat := [0x9003, 0x9004, 0x0132]

/-- `strip_heic_metadata.strip_metadata`: wipe every tag in place and, when
`keep_datetimes` is set, copy the three timestamp tags back from the file's
own pre-strip metadata.  A missing file makes ExifTool exit non-zero
(`CalledProcessError`); otherwise the file's oracle decides. -/
def strip_metadata (file : FsPath) (keepDatetimes : Bool) (fs : FS) :
    FS × List Ev × Option PyExc :=
  match FS.lookup fs file with
  | none => (fs, [Ev.toolEv file], some (PyExc.calledProcessError "File not found"))
  | some im =>
    match im.stripRes with
    | some e => (fs, [Ev.toolEv file], some e)
    | none =>
      let newExif :=
        if keepDatetimes then
          im.exif.filter (fun tv => EXIFTOOL_KEEP_TAGS.contains tv.1)
        else []
      (FS.insertFile fs file { im with exif := newExif }, [Ev.toolEv file], none)

/-- The per-file loop of `strip_heic_metadata.main`: only
`subprocess.CalledProcessError` is caught per file; any other exception
propagates out of the loop and aborts the run (last component).  The counter
is the number of successful strips up to the end (or the abort). -/
def stripLoop (root : List String) (keepDatetimes : Bool) :
    List FsPath → FS → FS × List Ev × Nat × Option PyExc
  | [], fs => (fs, [], 0, none)
  | f :: rest, fs =>
    let r1 := strip_metadata f keepDatetimes fs
    match r1.2.2 with
    | none =>
      let r2 := stripLoop root keepDatetimes rest r1.1
      (r2.1, r1.2.1 ++ (Ev.outLine (Line.strippedLine (relStr root f)) :: r2.2.1),
       r2.2.2.1 + 1, r2.2.2.2)
    | some (PyExc.calledProcessError m) =>
      let r2 := stripLoop root keepDatetimes rest r1.1
      (r2.1, r1.2.1 ++ (Ev.outLine (Line.errorLine (pathStr f) m) :: r2.2.1),
       r2.2.2.1, r2.2.2.2)
    | some (PyExc.otherExc m) => (r1.1, r1.2.1, 0, some (PyExc.otherExc m))

/-- The early summary of `strip_heic_metadata.main` when discovery is empty. -/
def noFilesMsg (exts : List String) (directory : List String)
    (recursive : Bool) : String :=
  "No files with extensions " ++ joinComma (sortStrings exts) ++ " found in " ++
    joinPath directory ++ " (recursive=" ++ pyBool recursive ++ ")."

/-- The final summary line of `strip_heic_metadata.main` (printed for any
count, zero included). -/
def doneProcessed (count : Nat) : String :=
  "Done. Processed " ++ toString count ++ " file" ++
    (if count != 1 then "s" else "") ++ "."

/-- The command line of `strip_heic_metadata.py`. -/
structure Args where
  directory : List String
  recursive : Bool
  keepDatetimes : Bool
  ext : String
deriving DecidableEq, Repr

/-- `strip_heic_metadata.main`: validate directory, ExifTool presence,
extension set; return early with a distinct message when no file matched;
otherwise loop (an uncaught exception aborts before the summary prints). -/
def main (args : Args) (w : World) : RunResult :=
  if (w.dirs.contains args.directory) = false then
    usageExit w UsageError.dirMissing
  else if w.exifToolOnPath = false then
    usageExit w UsageError.exifToolMissing
  else
    let exts := parseExts args.ext
    if exts.isEmpty then usageExit w UsageError.emptyExts
    else
      let files := discover args.directory exts args.recursive w.files
      if files.isEmpty then
        { err := none, exc := none, fs := w.files, trace := [], total := 0,
          discovered := files,
          summaryLine := some (noFilesMsg exts args.directory args.recursive) }
      else
        let r := stripLoop args.directory args.keepDatetimes files w.files
        match r.2.2.2 with
        | none =>
          { err := none, exc := none, fs := r.1, trace := r.2.1,
            total := r.2.2.1, discovered := files,
            summaryLine := some (doneProcessed r.2.2.1) }
        | some e =>
          { err := none, exc := some e, fs := r.1, trace := r.2.1,
            total := r.2.2.1, discovered := files, summaryLine := none }

end StripMeta

/-! ### Lemmas about the filesystem operations -/

theorem FS.lookup_eraseFile (fs : FS) (p q : FsPath) :
    FS.lookup (FS.eraseFile fs p) q = if q = p then none else FS.lookup fs q := by
  induction fs with
  | nil => simp [FS.eraseFile, FS.lookup]
  | cons kv rest ih =>
    obtain ⟨k, im⟩ := kv
    by_cases hqp : q = p <;> by_cases hkp : k = p <;> by_cases hkq : k = q <;>
      simp_all [FS.eraseFile, FS.lookup]

theorem FS.lookup_replaceFile (fs : FS) (p : FsPath) (im : ImageFile)
    (q : FsPath) :
    FS.lookup (FS.replaceFile fs p im) q =
      if q = p then (FS.lookup fs p).map (fun _ => im) else FS.lookup fs q := by
  induction fs with
  | nil => simp [FS.replaceFile, FS.lookup]
  | cons kv rest ih =>
    obtain ⟨k, j⟩ := kv
    by_cases hqp : q = p <;> by_cases hkp : k = p <;> by_cases hkq : k = q <;>
      simp_all [FS.replaceFile, FS.lookup]

theorem FS.lookup_append (l1 l2 : FS) (q : FsPath) :
    FS.lookup (l1 ++ l2) q =
      (FS.lookup l1 q).elim (FS.lookup l2 q) some := by
  induction l1 with
  | nil => simp [FS.lookup]
  | cons kv rest ih =>
    obtain ⟨k, j⟩ := kv
    by_cases hk : k = q <;> simp [FS.lookup, hk, ih]

theorem FS.lookup_insertFile (fs : FS) (p : FsPath) (im : ImageFile)
    (q : FsPath) :
    FS.lookup (FS.insertFile fs p im) q =
      if q = p then some im else FS.lookup fs q := by
  unfold FS.insertFile
  by_cases hex : FS.existsPath fs p = true
  · rw [if_pos hex, FS.lookup_replaceFile]
    unfold FS.existsPath at hex
    by_cases hq : q = p
    · subst hq
      obtain ⟨x, hx⟩ := Option.isSome_iff_exists.mp hex
      simp [hx]
    · simp [hq]
  · rw [if_neg hex, FS.lookup_append]
    unfold FS.existsPath at hex
    have hnone : FS.lookup fs p = none := by
      cases h : FS.lookup fs p with
      | none => rfl
      | some x => exact absurd (by simp [h]) hex
    by_cases hq : q = p
    · subst hq
      simp [hnone, FS.lookup]
    · have hpq : ¬ p = q := fun h => hq h.symm
      cases hl : FS.lookup fs q with
      | none => simp [hl, FS.lookup, hq, hpq]
      | some x => simp [hl, hq]

theorem FS.existsPath_insertFile (fs : FS) (p : FsPath) (im : ImageFile)
    (q : FsPath) :
    FS.existsPath (FS.insertFile fs p im) q =
      if q = p then true else FS.existsPath fs q := by
  unfold FS.existsPath
  rw [FS.lookup_insertFile]
  by_cases hq : q = p <;> simp [hq]

theorem FS.existsPath_eraseFile (fs : FS) (p q : FsPath) :
    FS.existsPath (FS.eraseFile fs p) q =
      if q = p then false else FS.existsPath fs q := by
  unfold FS.existsPath
  rw [FS.lookup_eraseFile]
  by_cases hq : q = p <;> simp [hq]

/-! ### Event counters -/

/-- Is this line the per-file outcome report of one file (`[SKIP]`, `[OK]` or
`[ERROR]`)?  The deletion notice is a secondary line, not an outcome. -/
def Line.isOutcome : Line → Bool
  | .skipLine _ => true
  | .okLine _ _ => true
  | .errorLine _ _ => true
  | .strippedLine _ => true
  | .deletedLine _ => false

/-- Is this event a printed per-file outcome line? -/
def Ev.isOutcomeEv : Ev → Bool
  | .outLine l => l.isOutcome
  | _ => false

/-- Is this event a printed `[OK] src → dst` conversion line? -/
def Ev.isOkEv : Ev → Bool
  | .outLine (Line.okLine _ _) => true
  | _ => false

/-- Is this event a printed `[ERROR]` line? -/
def Ev.isErrorEv : Ev → Bool
  | .outLine (Line.errorLine _ _) => true
  | _ => false

/-- Number of per-file outcome lines in a trace. -/
def outcomeCount (evs : List Ev) : Nat := (evs.filter Ev.isOutcomeEv).length

/-- Number of `[OK]` conversion lines in a trace. -/
def okCount (evs : List Ev) : Nat := (evs.filter Ev.isOkEv).length

/-- Number of `[ERROR]` lines in a trace. -/
def errCount (evs : List Ev) : Nat := (evs.filter Ev.isErrorEv).length

theorem outcomeCount_append (a b : List Ev) :
    outcomeCount (a ++ b) = outcomeCount a + outcomeCount b := by
  simp [outcomeCount, List.filter_append]

theorem okCount_append (a b : List Ev) :
    okCount (a ++ b) = okCount a + okCount b := by
  simp [okCount, List.filter_append]

theorem errCount_append (a b : List Ev) :
    errCount (a ++ b) = errCount a + errCount b := by
  simp [errCount, List.filter_append]

theorem outcomeCount_cons (x : Ev) (l : List Ev) :
    outcomeCount (x :: l) =
      outcomeCount l + (if Ev.isOutcomeEv x then 1 else 0) := by
  simp only [outcomeCount, List.filter_cons]
  split <;> simp

theorem okCount_cons (x : Ev) (l : List Ev) :
    okCount (x :: l) = okCount l + (if Ev.isOkEv x then 1 else 0) := by
  simp only [okCount, List.filter_cons]
  split <;> simp

theorem errCount_cons (x : Ev) (l : List Ev) :
    errCount (x :: l) = errCount l + (if Ev.isErrorEv x then 1 else 0) := by
  simp only [errCount, List.filter_cons]
  split <;> simp

theorem okCount_nil : okCount [] = 0 := rfl

/-! ### Generic facts about the shared orchestrator loop -/

/-- In the convert variants' loop, each file contributes its counter
increment exactly when no `[ERROR]` line was printed for it: the final
counter plus the number of `[ERROR]` lines equals the number of files. -/
theorem runLoop_total_add_errCount
    (step : FsPath → FS → FS × List Ev × Option PyExc)
    (fmt : FsPath → PyExc → Line)
    (hstep : ∀ f fs, errCount (step f fs).2.1 = 0)
    (hfmt : ∀ f e, Ev.isErrorEv (Ev.outLine (fmt f e)) = true) :
    ∀ (files : List FsPath) (fs : FS),
      (runLoop step fmt files fs).2.2 +
        errCount (runLoop step fmt files fs).2.1 = files.length := by
  intro files
  induction files with
  | nil => intro fs; simp [runLoop, errCount]
  | cons f rest ih =>
    intro fs
    have hrec := ih (step f fs).1
    have h0 := hstep f fs
    simp only [runLoop]
    cases hc : (step f fs).2.2 with
    | none =>
      simp only [errCount_append, h0, List.length_cons]
      omega
    | some e =>
      simp only [errCount_append, errCount_cons, h0, hfmt, if_pos,
        List.length_cons]
      omega

/-- In the convert variants' loop, every file is reported with exactly one
outcome line (`[SKIP]`, `[OK]` or `[ERROR]`): the loop is never aborted by a
per-file exception, whatever the files' behaviour. -/
theorem runLoop_outcomeCount
    (step : FsPath → FS → FS × List Ev × Option PyExc)
    (fmt : FsPath → PyExc → Line)
    (hstep : ∀ f fs, outcomeCount (step f fs).2.1 =
      ((step f fs).2.2).elim 1 (fun _ => 0))
    (hfmt : ∀ f e, Ev.isOutcomeEv (Ev.outLine (fmt f e)) = true) :
    ∀ (files : List FsPath) (fs : FS),
      outcomeCount (runLoop step fmt files fs).2.1 = files.length := by
  intro files
  induction files with
  | nil => intro fs; simp [runLoop, outcomeCount]
  | cons f rest ih =>
    intro fs
    have hrec := ih (step f fs).1
    have h0 := hstep f fs
    simp only [runLoop]
    cases hc : (step f fs).2.2 with
    | none =>
      rw [hc] at h0
      simp only [outcomeCount_append, h0, List.length_cons, Option.elim]
      omega
    | some e =>
      rw [hc] at h0
      simp only [outcomeCount_append, outcomeCount_cons, h0, hfmt, if_pos,
        List.length_cons, Option.elim]
      omega

/-! ### Case-analysis facts about `heic_to_jpg.convert` -/

/-- When `heic_to_jpg.convert` lets an exception escape, the filesystem is
untouched and the only event is the attempted decode: in particular the
source was not unlinked and the destination was not written. -/
theorem HeicToJpg.convert_err (src : FsPath) (q : Int) (del : Bool) (fs : FS)
    (fs' : FS) (evs : List Ev) (e : PyExc)
    (h : HeicToJpg.convert src q del fs = (fs', evs, some e)) :
    fs' = fs ∧ evs = [Ev.openEv src] := by
  simp only [HeicToJpg.convert] at h
  split at h
  · simp at h
  · split at h
    · simp only [Prod.mk.injEq] at h
      exact ⟨h.1.symm, h.2.1.symm⟩
    · split at h
      · split at h
        · split at h <;> simp at h
        · simp only [Prod.mk.injEq] at h
          exact ⟨h.1.symm, h.2.1.symm⟩
      · simp only [Prod.mk.injEq] at h
        exact ⟨h.1.symm, h.2.1.symm⟩

/-- `heic_to_jpg.convert` prints no `[ERROR]` line itself, prints exactly one
outcome line when it returns normally and none when it raises, and prints at
most one `[OK]` line. -/
theorem HeicToJpg.convert_counts (src : FsPath) (q : Int) (del : Bool)
    (fs : FS) :
    errCount (HeicToJpg.convert src q del fs).2.1 = 0 ∧
    outcomeCount (HeicToJpg.convert src q del fs).2.1 =
      ((HeicToJpg.convert src q del fs).2.2).elim 1 (fun _ => 0) ∧
    okCount (HeicToJpg.convert src q del fs).2.1 ≤ 1 := by
  simp only [HeicToJpg.convert]
  split
  · simp [errCount, outcomeCount, okCount, Ev.isErrorEv, Ev.isOutcomeEv,
      Ev.isOkEv, Line.isOutcome, List.filter, Option.elim]
  · split
    · simp [errCount, outcomeCount, okCount, Ev.isErrorEv, Ev.isOutcomeEv,
        Ev.isOkEv, Line.isOutcome, List.filter, Option.elim]
    · split
      · split
        · split <;>
            simp [errCount, outcomeCount, okCount, Ev.isErrorEv,
              Ev.isOutcomeEv, Ev.isOkEv, Line.isOutcome, List.filter,
              Option.elim]
        · simp [errCount, outcomeCount, okCount, Ev.isErrorEv, Ev.isOutcomeEv,
            Ev.isOkEv, Line.isOutcome, List.filter, Option.elim]
      · simp [errCount, outcomeCount, okCount, Ev.isErrorEv, Ev.isOutcomeEv,
          Ev.isOkEv, Line.isOutcome, List.filter, Option.elim]

/-- When the destination already exists, `heic_to_jpg.convert` is a pure
no-op apart from the `[SKIP]` line: no decode, no write, no unlink, no
exception. -/
theorem HeicToJpg.convert_skip (src : FsPath) (q : Int) (del : Bool) (fs : FS)
    (h : FS.existsPath fs (with_suffix src ".jpg") = true) :
    HeicToJpg.convert src q del fs =
      (fs, [Ev.outLine (Line.skipLine (with_suffix src ".jpg").name)], none) := by
  simp [HeicToJpg.convert, h]

/-- After a normal return of `heic_to_jpg.convert` (skip or conversion), the
destination exists on disk. -/
theorem HeicToJpg.convert_none_dst (src : FsPath) (q : Int) (del : Bool)
    (fs : FS) (fs' : FS) (evs : List Ev)
    (h : HeicToJpg.convert src q del fs = (fs', evs, none)) :
    FS.existsPath fs' (with_suffix src ".jpg") = true := by
  simp only [HeicToJpg.convert] at h
  split at h
  next hex =>
    simp only [Prod.mk.injEq] at h
    rw [← h.1]
    exact hex
  next hex =>
    split at h
    · simp at h
    next im heq =>
      split at h
      · split at h
        · split at h
          · simp only [Prod.mk.injEq] at h
            have hsrc : FS.existsPath fs src = true := by
              simp [FS.existsPath, heq]
            have hds : ¬ with_suffix src ".jpg" = src := by
              intro hd
              rw [hd] at hex
              exact hex hsrc
            rw [← h.1, FS.existsPath_eraseFile, if_neg hds,
              FS.existsPath_insertFile, if_pos rfl]
          · simp only [Prod.mk.injEq] at h
            rw [← h.1, FS.existsPath_insertFile, if_pos rfl]
        · simp at h
      · simp at h

/-- When `heic_to_jpg.convert` unlinked the source, the destination exists in
the resulting filesystem. -/
theorem HeicToJpg.convert_unlink_dst (src : FsPath) (q : Int) (del : Bool)
    (fs : FS) (fs' : FS) (evs : List Ev) (exc : Option PyExc)
    (h : HeicToJpg.convert src q del fs = (fs', evs, exc))
    (hmem : Ev.unlinkEv src ∈ evs) :
    FS.existsPath fs' (with_suffix src ".jpg") = true := by
  simp only [HeicToJpg.convert] at h
  split at h
  next hex =>
    simp only [Prod.mk.injEq] at h
    rw [← h.2.1] at hmem
    simp at hmem
  next hex =>
    split at h
    · simp only [Prod.mk.injEq] at h
      rw [← h.2.1] at hmem
      simp at hmem
    next im heq =>
      split at h
      · split at h
        · split at h
          · simp only [Prod.mk.injEq] at h
            have hsrc : FS.existsPath fs src = true := by
              simp [FS.existsPath, heq]
            have hds : ¬ with_suffix src ".jpg" = src := by
              intro hd
              rw [hd] at hex
              exact hex hsrc
            rw [← h.1, FS.existsPath_eraseFile, if_neg hds,
              FS.existsPath_insertFile, if_pos rfl]
          · simp only [Prod.mk.injEq] at h
            rw [← h.2.1] at hmem
            simp at hmem
        · simp only [Prod.mk.injEq] at h
          rw [← h.2.1] at hmem
          simp at hmem
      · simp only [Prod.mk.injEq] at h
        rw [← h.2.1] at hmem
        simp at hmem

/-! ### Case-analysis facts about `sanitize_heic_to_jpg.convert` -/

/-- When `sanitize_heic_to_jpg.convert` lets an exception escape, the
filesystem is untouched and the only event is the attempted decode. -/
theorem Sanitize.sanitize_convert_err (src : FsPath) (q : Int) (del : Bool) (fs : FS)
    (fs' : FS) (evs : List Ev) (e : PyExc)
    (h : Sanitize.convert src q del fs = (fs', evs, some e)) :
    fs' = fs ∧ evs = [Ev.openEv src] := by
  simp only [Sanitize.convert] at h
  split at h
  · simp at h
  · split at h
    · simp only [Prod.mk.injEq] at h
      exact ⟨h.1.symm, h.2.1.symm⟩
    · split at h
      · split at h
        · split at h <;> simp at h
        · simp only [Prod.mk.injEq] at h
          exact ⟨h.1.symm, h.2.1.symm⟩
      · simp only [Prod.mk.injEq] at h
        exact ⟨h.1.symm, h.2.1.symm⟩

/-- `sanitize_heic_to_jpg.convert` prints no `[ERROR]` line itself and prints
exactly one outcome line when it returns normally, none when it raises. -/
theorem Sanitize.sanitize_convert_counts (src : FsPath) (q : Int) (del : Bool)
    (fs : FS) :
    errCount (Sanitize.convert src q del fs).2.1 = 0 ∧
    outcomeCount (Sanitize.convert src q del fs).2.1 =
      ((Sanitize.convert src q del fs).2.2).elim 1 (fun _ => 0) := by
  simp only [Sanitize.convert]
  split
  · simp [errCount, outcomeCount, Ev.isErrorEv, Ev.isOutcomeEv,
      Line.isOutcome, List.filter, Option.elim]
  · split
    · simp [errCount, outcomeCount, Ev.isErrorEv, Ev.isOutcomeEv,
        Line.isOutcome, List.filter, Option.elim]
    · split
      · split
        · split <;>
            simp [errCount, outcomeCount, Ev.isErrorEv, Ev.isOutcomeEv,
              Line.isOutcome, List.filter, Option.elim]
        · simp [errCount, outcomeCount, Ev.isErrorEv, Ev.isOutcomeEv,
            Line.isOutcome, List.filter, Option.elim]
      · simp [errCount, outcomeCount, Ev.isErrorEv, Ev.isOutcomeEv,
          Line.isOutcome, List.filter, Option.elim]

/-- When the destination already exists, `sanitize_heic_to_jpg.convert` is a
pure no-op apart from the `[SKIP]` line. -/
theorem Sanitize.sanitize_convert_skip (src : FsPath) (q : Int) (del : Bool) (fs : FS)
    (h : FS.existsPath fs (with_suffix src ".jpg") = true) :
    Sanitize.convert src q del fs =
      (fs, [Ev.outLine (Line.skipLine (with_suffix src ".jpg").name)], none) := by
  simp [Sanitize.convert, h]

/-- When `sanitize_heic_to_jpg.convert` unlinked the source, the destination
exists in the resulting filesystem. -/
theorem Sanitize.sanitize_convert_unlink_dst (src : FsPath) (q : Int) (del : Bool)
    (fs : FS) (fs' : FS) (evs : List Ev) (exc : Option PyExc)
    (h : Sanitize.convert src q del fs = (fs', evs, exc))
    (hmem : Ev.unlinkEv src ∈ evs) :
    FS.existsPath fs' (with_suffix src ".jpg") = true := by
  simp only [Sanitize.convert] at h
  split at h
  next hex =>
    simp only [Prod.mk.injEq] at h
    rw [← h.2.1] at hmem
    simp at hmem
  next hex =>
    split at h
    · simp only [Prod.mk.injEq] at h
      rw [← h.2.1] at hmem
      simp at hmem
    next im heq =>
      split at h
      · split at h
        · split at h
          · simp only [Prod.mk.injEq] at h
            have hsrc : FS.existsPath fs src = true := by
              simp [FS.existsPath, heq]
            have hds : ¬ with_suffix src ".jpg" = src := by
              intro hd
              rw [hd] at hex
              exact hex hsrc
            rw [← h.1, FS.existsPath_eraseFile, if_neg hds,
              FS.existsPath_insertFile, if_pos rfl]
          · simp only [Prod.mk.injEq] at h
            rw [← h.2.1] at hmem
            simp at hmem
        · simp only [Prod.mk.injEq] at h
          rw [← h.2.1] at hmem
          simp at hmem
      · simp only [Prod.mk.injEq] at h
        rw [← h.2.1] at hmem
        simp at hmem

/-! ### Case-analysis facts about `heic_strip_and_convert_to_jpg` -/

/-- The external strip always traces exactly its tool invocation. -/
theorem StripConvert.strip_evs (f : FsPath) (fs : FS) :
    (StripConvert.strip_all_metadata f fs).2.1 = [Ev.toolEv f] := by
  simp only [StripConvert.strip_all_metadata]
  split
  · rfl
  · split <;> rfl

/-- When `convert_to_jpg` lets an exception escape, the filesystem is
untouched and the only event is the attempted decode: no unlink happened. -/
theorem StripConvert.convert_to_jpg_err (src : FsPath) (q : Int)
    (delOrig : Bool) (fs : FS) (fs' : FS) (evs : List Ev) (e : PyExc)
    (h : StripConvert.convert_to_jpg src q delOrig fs = (fs', evs, some e)) :
    fs' = fs ∧ evs = [Ev.openEv src] := by
  simp only [StripConvert.convert_to_jpg] at h
  split at h
  · split at h <;> simp at h
  · split at h
    · simp only [Prod.mk.injEq] at h
      exact ⟨h.1.symm, h.2.1.symm⟩
    · split at h
      · split at h
        · split at h <;> simp at h
        · simp only [Prod.mk.injEq] at h
          exact ⟨h.1.symm, h.2.1.symm⟩
      · simp only [Prod.mk.injEq] at h
        exact ⟨h.1.symm, h.2.1.symm⟩

/-- `convert_to_jpg` prints no `[ERROR]` line itself and prints exactly one
outcome line when it returns normally, none when it raises. -/
theorem StripConvert.convert_to_jpg_counts (src : FsPath) (q : Int)
    (delOrig : Bool) (fs : FS) :
    errCount (StripConvert.convert_to_jpg src q delOrig fs).2.1 = 0 ∧
    outcomeCount (StripConvert.convert_to_jpg src q delOrig fs).2.1 =
      ((StripConvert.convert_to_jpg src q delOrig fs).2.2).elim 1
        (fun _ => 0) := by
  simp only [StripConvert.convert_to_jpg]
  split
  · split <;>
      simp [errCount, outcomeCount, Ev.isErrorEv, Ev.isOutcomeEv,
        Line.isOutcome, List.filter, Option.elim]
  · split
    · simp [errCount, outcomeCount, Ev.isErrorEv, Ev.isOutcomeEv,
        Line.isOutcome, List.filter, Option.elim]
    · split
      · split
        · split <;>
            simp [errCount, outcomeCount, Ev.isErrorEv, Ev.isOutcomeEv,
              Line.isOutcome, List.filter, Option.elim]
        · simp [errCount, outcomeCount, Ev.isErrorEv, Ev.isOutcomeEv,
            Line.isOutcome, List.filter, Option.elim]
      · simp [errCount, outcomeCount, Ev.isErrorEv, Ev.isOutcomeEv,
          Line.isOutcome, List.filter, Option.elim]

/-- When the destination already exists, `convert_to_jpg` performs no
decode, no encode and no write: it prints `[SKIP]` and, when deletion is on,
only unlinks the source. -/
theorem StripConvert.convert_to_jpg_skip (src : FsPath) (q : Int)
    (delOrig : Bool) (fs : FS)
    (h : FS.existsPath fs (with_suffix src ".jpg") = true) :
    StripConvert.convert_to_jpg src q delOrig fs =
      (if delOrig then FS.eraseFile fs src else fs,
       Ev.outLine (Line.skipLine (with_suffix src ".jpg").name) ::
         (if delOrig then [Ev.unlinkEv src] else []),
       none) := by
  by_cases hd : delOrig = true <;>
    simp_all [StripConvert.convert_to_jpg]

/-- When `convert_to_jpg` unlinked a source that is not its own destination,
the destination exists in the resulting filesystem. -/
theorem StripConvert.convert_to_jpg_unlink_dst (src : FsPath) (q : Int)
    (delOrig : Bool) (fs : FS) (fs' : FS) (evs : List Ev) (exc : Option PyExc)
    (h : StripConvert.convert_to_jpg src q delOrig fs = (fs', evs, exc))
    (hmem : Ev.unlinkEv src ∈ evs)
    (hne : ¬ with_suffix src ".jpg" = src) :
    FS.existsPath fs' (with_suffix src ".jpg") = true := by
  simp only [StripConvert.convert_to_jpg] at h
  split at h
  next hex =>
    split at h
    · simp only [Prod.mk.injEq] at h
      rw [← h.1, FS.existsPath_eraseFile, if_neg hne]
      exact hex
    · simp only [Prod.mk.injEq] at h
      rw [← h.2.1] at hmem
      simp at hmem
  next hex =>
    split at h
    · simp only [Prod.mk.injEq] at h
      rw [← h.2.1] at hmem
      simp at hmem
    next im heq =>
      split at h
      · split at h
        · split at h
          · simp only [Prod.mk.injEq] at h
            rw [← h.1, FS.existsPath_eraseFile, if_neg hne,
              FS.existsPath_insertFile, if_pos rfl]
          · simp only [Prod.mk.injEq] at h
            rw [← h.2.1] at hmem
            simp at hmem
        · simp only [Prod.mk.injEq] at h
          rw [← h.2.1] at hmem
          simp at hmem
      · simp only [Prod.mk.injEq] at h
        rw [← h.2.1] at hmem
        simp at hmem

/-- The strip-then-convert step prints no `[ERROR]` line itself and prints
exactly one outcome line when no exception escapes, none otherwise. -/
theorem StripConvert.step_counts (q : Int) (delOrig : Bool) (f : FsPath)
    (fs : FS) :
    errCount (StripConvert.step q delOrig f fs).2.1 = 0 ∧
    outcomeCount (StripConvert.step q delOrig f fs).2.1 =
      ((StripConvert.step q delOrig f fs).2.2).elim 1 (fun _ => 0) := by
  have hevs := StripConvert.strip_evs f fs
  have hcv := StripConvert.convert_to_jpg_counts f q delOrig
    (StripConvert.strip_all_metadata f fs).1
  simp only [StripConvert.step]
  cases hc : (StripConvert.strip_all_metadata f fs).2.2 with
  | some e =>
    simp [hc, hevs, errCount, outcomeCount, Ev.isErrorEv, Ev.isOutcomeEv,
      List.filter, Option.elim]
  | none =>
    have h1 : errCount [Ev.toolEv f] = 0 := by
      simp [errCount, List.filter, Ev.isErrorEv]
    have h2 : outcomeCount [Ev.toolEv f] = 0 := by
      simp [outcomeCount, List.filter, Ev.isOutcomeEv]
    simp only [hc, hevs, errCount_append, outcomeCount_append, h1, h2,
      hcv.1, hcv.2, Nat.zero_add]
    trivial

/-! ### Case-analysis facts about `strip_heic_metadata` -/

/-- Does the ExifTool oracle of this file raise something other than
`CalledProcessError` (e.g. a permission error at the call site)? -/
def ImageFile.stripCrashes (im : ImageFile) : Bool :=
  match im.stripRes with
  | some (PyExc.otherExc _) => true
  | _ => false

/-- No file of this filesystem makes the external tool invocation raise
anything other than `CalledProcessError`. -/
def noToolCrash (fs : FS) : Bool :=
  fs.all (fun kv => ! kv.2.stripCrashes)

theorem noToolCrash_lookup (fs : FS) (p : FsPath) (im : ImageFile)
    (hall : noToolCrash fs = true) (h : FS.lookup fs p = some im) :
    im.stripCrashes = false := by
  induction fs with
  | nil => simp [FS.lookup] at h
  | cons kv rest ih =>
    obtain ⟨k, j⟩ := kv
    simp only [noToolCrash, List.all_cons, Bool.and_eq_true] at hall
    simp only [FS.lookup] at h
    split at h
    · cases h
      simpa using hall.1
    · exact ih hall.2 h

theorem noToolCrash_replaceFile (fs : FS) (p : FsPath) (im : ImageFile)
    (hall : noToolCrash fs = true) (him : im.stripCrashes = false) :
    noToolCrash (FS.replaceFile fs p im) = true := by
  induction fs with
  | nil => simp [FS.replaceFile, noToolCrash]
  | cons kv rest ih =>
    obtain ⟨k, j⟩ := kv
    simp only [noToolCrash, List.all_cons, Bool.and_eq_true] at hall
    simp only [FS.replaceFile]
    split <;>
      simp only [noToolCrash, List.all_cons, Bool.and_eq_true] <;>
      exact ⟨by simp [him, hall.1], ih hall.2⟩

theorem noToolCrash_insertFile (fs : FS) (p : FsPath) (im : ImageFile)
    (hall : noToolCrash fs = true) (him : im.stripCrashes = false) :
    noToolCrash (FS.insertFile fs p im) = true := by
  unfold FS.insertFile
  split
  · exact noToolCrash_replaceFile fs p im hall him
  · simp only [noToolCrash, List.all_append, Bool.and_eq_true]
    exact ⟨hall, by simp [him]⟩

/-- The in-place strip always traces exactly its tool invocation. -/
theorem StripMeta.strip_metadata_evs (f : FsPath) (kd : Bool) (fs : FS) :
    (StripMeta.strip_metadata f kd fs).2.1 = [Ev.toolEv f] := by
  simp only [StripMeta.strip_metadata]
  split
  · rfl
  · split <;> rfl

/-- On a crash-free filesystem the in-place strip never raises anything but
`CalledProcessError`. -/
theorem StripMeta.strip_metadata_no_crash (f : FsPath) (kd : Bool) (fs : FS)
    (hall : noToolCrash fs = true) (m : String) :
    (StripMeta.strip_metadata f kd fs).2.2 ≠ some (PyExc.otherExc m) := by
  simp only [StripMeta.strip_metadata]
  split
  · simp
  next im heq =>
    split
    next e he =>
      have hcr := noToolCrash_lookup fs f im hall heq
      cases e with
      | calledProcessError s => simp
      | otherExc s => simp [ImageFile.stripCrashes, he] at hcr
    · simp

/-- The in-place strip preserves crash-freedom of the filesystem (it only
rewrites metadata, never the files' oracles). -/
theorem StripMeta.strip_metadata_preserves (f : FsPath) (kd : Bool) (fs : FS)
    (hall : noToolCrash fs = true) :
    noToolCrash (StripMeta.strip_metadata f kd fs).1 = true := by
  simp only [StripMeta.strip_metadata]
  split
  · exact hall
  next im heq =>
    split
    · exact hall
    · have him := noToolCrash_lookup fs f im hall heq
      refine noToolCrash_insertFile fs f _ hall ?_
      simpa [ImageFile.stripCrashes] using him

/-- On a crash-free filesystem, `strip_heic_metadata`'s loop is never
aborted: it ends without an uncaught exception and reports every file with
exactly one outcome line. -/
theorem StripMeta.stripLoop_total (root : List String) (kd : Bool) :
    ∀ (files : List FsPath) (fs : FS), noToolCrash fs = true →
      (StripMeta.stripLoop root kd files fs).2.2.2 = none ∧
      outcomeCount (StripMeta.stripLoop root kd files fs).2.1 =
        files.length := by
  intro files
  induction files with
  | nil => intro fs hall; simp [StripMeta.stripLoop, outcomeCount]
  | cons f rest ih =>
    intro fs hall
    have hevs := StripMeta.strip_metadata_evs f kd fs
    have hpres := StripMeta.strip_metadata_preserves f kd fs hall
    have hrec := ih (StripMeta.strip_metadata f kd fs).1 hpres
    have h0 : outcomeCount [Ev.toolEv f] = 0 := by
      simp [outcomeCount, List.filter, Ev.isOutcomeEv]
    simp only [StripMeta.stripLoop]
    cases hc : (StripMeta.strip_metadata f kd fs).2.2 with
    | none =>
      simp only [hevs, outcomeCount_append, outcomeCount_cons, h0,
        Ev.isOutcomeEv, Line.isOutcome, if_pos, List.length_cons]
      refine ⟨hrec.1, ?_⟩
      rw [hrec.2]
      omega
    | some e =>
      cases e with
      | otherExc m =>
        exact absurd hc (StripMeta.strip_metadata_no_crash f kd fs hall m)
      | calledProcessError m =>
        simp only [hevs, outcomeCount_append, outcomeCount_cons, h0,
          Ev.isOutcomeEv, Line.isOutcome, if_pos, List.length_cons]
        refine ⟨hrec.1, ?_⟩
        rw [hrec.2]
        omega

/-! ### Concrete fixtures used by witnesses and counterexamples -/

/-- A decodable, encodable HEIC with timestamp and maker metadata. -/
def imGood : ImageFile :=
  { pixels := 7, exif := [(0x9003, 11), (0x0132, 22), (0x010F, 33)],
    decodable := true, encodeOk := true, stripRes := none }

/-- A pre-existing JPEG output. -/
def imJpg : ImageFile :=
  { pixels := 5, exif := [], decodable := true, encodeOk := true,
    stripRes := none }

/-- A corrupt file: decoding it raises. -/
def imCorrupt : ImageFile :=
  { pixels := 3, exif := [], decodable := false, encodeOk := true,
    stripRes := none }

/-- A file on which the external tool invocation raises a non-tool error
(e.g. a permission error launching the process). -/
def imToolCrash : ImageFile :=
  { pixels := 1, exif := [(1, 2)], decodable := true, encodeOk := true,
    stripRes := some (PyExc.otherExc "Permission denied") }

/-- A file the external tool strips successfully. -/
def imStripOk : ImageFile :=
  { pixels := 2, exif := [(3, 4)], decodable := true, encodeOk := true,
    stripRes := none }

/-- A file on which the external tool exits non-zero. -/
def imCpe : ImageFile :=
  { pixels := 4, exif := [(5, 6)], decodable := true, encodeOk := true,
    stripRes := some (PyExc.calledProcessError "Unknown file type") }

def srcA : FsPath := { parent := ["pics"], stem := "a", suffix := ".heic" }

def dstA : FsPath := { parent := ["pics"], stem := "a", suffix := ".jpg" }

def srcB : FsPath := { parent := ["pics"], stem := "b", suffix := ".heic" }

def srcC : FsPath := { parent := ["pics"], stem := "c", suffix := ".heic" }

/-- `heic_to_jpg.py pics` with the defaults. -/
def argsHeic : HeicToJpg.Args :=
  { directory := ["pics"], recursive := false, quality := 90,
    ext := "heic,heif", delete := false }

/-- `strip_heic_metadata.py pics` with the defaults. -/
def argsStrip : StripMeta.Args :=
  { directory := ["pics"], recursive := false, keepDatetimes := false,
    ext := "heic,heif" }

/-- A world holding one HEIC whose `.jpg` destination already exists. -/
def wSkip : World :=
  { dirs := [["pics"]], files := [(srcA, imGood), (dstA, imJpg)],
    exifToolOnPath := true }

/-- A world with an existing, empty directory. -/
def wEmpty : World :=
  { dirs := [["pics"]], files := [], exifToolOnPath := true }

/-- A world holding a single corrupt HEIC. -/
def wCorrupt : World :=
  { dirs := [["pics"]], files := [(srcA, imCorrupt)], exifToolOnPath := true }

/-- A world where the first file crashes the tool invocation and the second
would strip fine. -/
def wStripCrash : World :=
  { dirs := [["pics"]], files := [(srcB, imToolCrash), (srcC, imStripOk)],
    exifToolOnPath := true }

/-! ### The claims -/

/-- Claim C1 is falsified by the code: running `heic_to_jpg.py` on a
directory holding `a.heic` next to an already-existing `a.jpg` reports the
file as `[SKIP]`, produces no output (no save event, no `[OK]` line) — yet
the counter ends at 1 and the summary says "Done. Converted 1 file.". -/
theorem claim_C1_counterexample :
    (HeicToJpg.main argsHeic wSkip).total = 1 ∧
    okCount (HeicToJpg.main argsHeic wSkip).trace = 0 ∧
    (HeicToJpg.main argsHeic wSkip).trace =
      [Ev.outLine (Line.skipLine "a.jpg")] ∧
    (HeicToJpg.main argsHeic wSkip).summaryLine =
      some "Done. Converted 1 file." := by
  decide

/-- Claim C1, amended: in the three convert variants the counter counts
every file whose per-file transform returned without raising — skipped files
included — so the summary count equals the number of discovered files minus
the number of `[ERROR]` reports, not the number of files for which a new
output was actually produced. -/
theorem claim_C1 :
    ∀ (q : Int) (del : Bool) (files : List FsPath) (fs : FS),
      (HeicToJpg.processLoop q del files fs).2.2 +
        errCount (HeicToJpg.processLoop q del files fs).2.1 = files.length ∧
      (Sanitize.processLoop q del files fs).2.2 +
        errCount (Sanitize.processLoop q del files fs).2.1 = files.length ∧
      (StripConvert.processLoop q del files fs).2.2 +
        errCount (StripConvert.processLoop q del files fs).2.1 =
          files.length := by
  intro q del files fs
  refine ⟨?_, ?_, ?_⟩
  · exact runLoop_total_add_errCount
      (fun f fs0 => HeicToJpg.convert f q del fs0)
      (fun f e => Line.errorLine (FsPath.name f) (PyExc.msg e))
      (fun f fs0 => (HeicToJpg.convert_counts f q del fs0).1)
      (fun f e => rfl) files fs
  · exact runLoop_total_add_errCount
      (fun f fs0 => Sanitize.convert f q del fs0)
      (fun f e => Line.errorLine (FsPath.name f) (PyExc.msg e))
      (fun f fs0 => (Sanitize.sanitize_convert_counts f q del fs0).1)
      (fun f e => rfl) files fs
  · exact runLoop_total_add_errCount
      (StripConvert.step q del) StripConvert.fmtError
      (fun f fs0 => (StripConvert.step_counts q del f fs0).1)
      (fun f e => by cases e <;> rfl) files fs

/-- Claim C3 is falsified on `strip_heic_metadata.py`, which catches only
`subprocess.CalledProcessError`: with a first file whose tool invocation
raises a permission error and a healthy second file, the run aborts with the
uncaught exception, no summary is printed, no outcome line is reported, and
the second file is never processed (its metadata is intact). -/
theorem claim_C3_counterexample :
    (StripMeta.main argsStrip wStripCrash).exc =
      some (PyExc.otherExc "Permission denied") ∧
    (StripMeta.main argsStrip wStripCrash).summaryLine = none ∧
    FS.lookup (StripMeta.main argsStrip wStripCrash).fs srcC =
      some imStripOk ∧
    outcomeCount (StripMeta.main argsStrip wStripCrash).trace = 0 := by
  decide

/-- Claim C3, amended: the three convert variants do catch every per-file
exception — each discovered file is reported with exactly one outcome line
and the loop always reaches the end of the list; the strip-only variant
catches only the external tool's `CalledProcessError`, so its loop reaches
the end (and reports one outcome line per file) whenever no file makes the
tool invocation raise anything else. -/
theorem claim_C3 :
    (∀ (q : Int) (del : Bool) (files : List FsPath) (fs : FS),
      outcomeCount (HeicToJpg.processLoop q del files fs).2.1 =
        files.length) ∧
    (∀ (q : Int) (del : Bool) (files : List FsPath) (fs : FS),
      outcomeCount (Sanitize.processLoop q del files fs).2.1 =
        files.length) ∧
    (∀ (q : Int) (delOrig : Bool) (files : List FsPath) (fs : FS),
      outcomeCount (StripConvert.processLoop q delOrig files fs).2.1 =
        files.length) ∧
    (∀ (root : List String) (kd : Bool) (files : List FsPath) (fs : FS),
      noToolCrash fs = true →
      (StripMeta.stripLoop root kd files fs).2.2.2 = none ∧
      outcomeCount (StripMeta.stripLoop root kd files fs).2.1 =
        files.length) := by
  refine ⟨?_, ?_, ?_, ?_⟩
  · intro q del files fs
    exact runLoop_outcomeCount
      (fun f fs0 => HeicToJpg.convert f q del fs0)
      (fun f e => Line.errorLine (FsPath.name f) (PyExc.msg e))
      (fun f fs0 => (HeicToJpg.convert_counts f q del fs0).2.1)
      (fun f e => rfl) files fs
  · intro q del files fs
    exact runLoop_outcomeCount
      (fun f fs0 => Sanitize.convert f q del fs0)
      (fun f e => Line.errorLine (FsPath.name f) (PyExc.msg e))
      (fun f fs0 => (Sanitize.sanitize_convert_counts f q del fs0).2)
      (fun f e => rfl) files fs
  · intro q delOrig files fs
    exact runLoop_outcomeCount
      (StripConvert.step q delOrig) StripConvert.fmtError
      (fun f fs0 => (StripConvert.step_counts q delOrig f fs0).2)
      (fun f e => by cases e <;> rfl) files fs
  · intro root kd files fs hall
    exact StripMeta.stripLoop_total root kd files fs hall

/-- Witness for the amended claim C3: a concrete crash-free run of the
strip-only loop (first file fails with a tool exit, second succeeds) reaches
the end without aborting and reports both files. -/
theorem claim_C3_witness :
    (StripMeta.stripLoop ["pics"] false [srcB, srcC]
      [(srcB, imCpe), (srcC, imStripOk)]).2.2.2 = none ∧
    outcomeCount (StripMeta.stripLoop ["pics"] false [srcB, srcC]
      [(srcB, imCpe), (srcC, imStripOk)]).2.1 = 2 := by
  exact claim_C3.2.2.2 ["pics"] false [srcB, srcC]
    [(srcB, imCpe), (srcC, imStripOk)] (by decide)

/-- Claim C5 is a genuine code bug: `TAG_MAP` maps tag *names* to tag ids,
but `build_exif_bytes` queries it with integer tag ids, so the lookup never
hits, no tag ever passes the allow-list test, the fresh container always
stays empty, and the function returns `None` for every input — the output
JPEG never carries any of the three allow-listed timestamp tags. -/
theorem claim_C5 :
    ∀ exif : List (Nat × Nat), HeicToJpg.build_exif_bytes exif = none := by
  have hget : ∀ n : Nat,
      HeicToJpg.dictGet HeicToJpg.TAG_MAP (HeicToJpg.PyKey.intK n) = none := by
    intro n
    have hgen : ∀ l : List (Nat × String),
        HeicToJpg.dictGet
          (l.map fun kv => (HeicToJpg.PyKey.strK kv.2, HeicToJpg.PyKey.intK kv.1))
          (HeicToJpg.PyKey.intK n) = none := by
      intro l
      induction l with
      | nil => rfl
      | cons kv rest ih => simp [HeicToJpg.dictGet, ih]
    exact hgen HeicToJpg.TAGS
  intro exif
  unfold HeicToJpg.build_exif_bytes
  split
  · rfl
  · have hf : exif.filter (fun tv => HeicToJpg.keyInKeepTagNames
        (HeicToJpg.dictGet HeicToJpg.TAG_MAP (HeicToJpg.PyKey.intK tv.1))) = [] := by
      refine List.filter_eq_nil_iff.mpr ?_
      intro a ha
      simp [hget, HeicToJpg.keyInKeepTagNames]
    simp [hf]

/-- A world with a single healthy HEIC and no destination. -/
def fsGood : FS := [(srcA, imGood)]

/-- A filesystem with a single corrupt HEIC. -/
def fsCorrupt : FS := [(srcA, imCorrupt)]

/-- `sanitize_heic_to_jpg.py pics` with the defaults. -/
def argsSanitize : Sanitize.Args :=
  { directory := ["pics"], recursive := false, quality := 90, delete := false,
    ext := "heic,heif" }

/-- `heic_strip_and_convert_to_jpg.py pics` with the defaults. -/
def argsSC : StripConvert.Args :=
  { directory := ["pics"], recursive := false, quality := 90, keep := false,
    ext := "heic,heif" }

/-- Claim C2 is falsified by the code: `heic_to_jpg.py` prints the very same
summary line for a run that discovered nothing and for a run that discovered
one file which failed — there is no distinct "no files matched" shape in the
convert variants. -/
theorem claim_C2_counterexample :
    (HeicToJpg.main argsHeic wEmpty).summaryLine =
      (HeicToJpg.main argsHeic wCorrupt).summaryLine ∧
    (HeicToJpg.main argsHeic wEmpty).discovered = [] ∧
    (HeicToJpg.main argsHeic wCorrupt).discovered = [srcA] ∧
    errCount (HeicToJpg.main argsHeic wCorrupt).trace = 1 := by
  decide

/-- Claim C2, amended: each convert variant ends with one of only two
summary shapes — a single zero-count message (used both when no files
matched and when every discovered file failed) and a "Done. ... N file(s)"
line with correct pluralization for N ≥ 1; only the strip-only variant
prints a distinct "no files found" message when discovery is empty, and it
prints "Done. Processed N file(s)" (N = 0 included) otherwise. -/
theorem claim_C2 :
    (∀ (args : HeicToJpg.Args) (w : World),
      (HeicToJpg.main args w).err = none →
      (HeicToJpg.main args w).summaryLine =
        some (if (HeicToJpg.main args w).total = 0
          then "No matching files converted (review [ERROR] lines)."
          else "Done. Converted " ++ toString (HeicToJpg.main args w).total ++
            " file" ++
            (if (HeicToJpg.main args w).total != 1 then "s" else "") ++ ".")) ∧
    (∀ (args : Sanitize.Args) (w : World),
      (Sanitize.main args w).err = none →
      (Sanitize.main args w).summaryLine =
        some (if (Sanitize.main args w).total = 0
          then "No matching files converted (review [ERROR] lines)."
          else "Done. Converted " ++ toString (Sanitize.main args w).total ++
            " file" ++
            (if (Sanitize.main args w).total != 1 then "s" else "") ++ ".")) ∧
    (∀ (args : StripConvert.Args) (w : World),
      (StripConvert.main args w).err = none →
      (StripConvert.main args w).summaryLine =
        some (if (StripConvert.main args w).total = 0
          then "No matching files processed — check [ERROR] messages above."
          else "Done. Processed " ++
            toString (StripConvert.main args w).total ++ " file" ++
            (if (StripConvert.main args w).total != 1 then "s" else "")
            ++ ".")) ∧
    (∀ (args : StripMeta.Args) (w : World),
      (StripMeta.main args w).err = none →
      (StripMeta.main args w).exc = none →
      ((StripMeta.main args w).discovered = [] →
        (StripMeta.main args w).summaryLine =
          some (StripMeta.noFilesMsg (parseExts args.ext) args.directory
            args.recursive)) ∧
      ((StripMeta.main args w).discovered ≠ [] →
        (StripMeta.main args w).summaryLine =
          some (StripMeta.doneProcessed (StripMeta.main args w).total))) := by
  refine ⟨?_, ?_, ?_, ?_⟩
  · intro args w herr
    simp only [HeicToJpg.main] at herr ⊢
    by_cases h1 : (w.dirs.contains args.directory) = false
    · rw [if_pos h1] at herr
      simp [usageExit] at herr
    · rw [if_neg h1] at herr ⊢
      by_cases h2 : 1 ≤ args.quality ∧ args.quality ≤ 100
      · rw [if_neg (not_not_intro h2)] at herr ⊢
        by_cases h3 : (parseExts args.ext).isEmpty = true
        · rw [if_pos h3] at herr
          simp [usageExit] at herr
        · rw [if_neg h3] at herr ⊢
          simp [HeicToJpg.summary]
      · rw [if_pos h2] at herr
        simp [usageExit] at herr
  · intro args w herr
    simp only [Sanitize.main] at herr ⊢
    by_cases h1 : (w.dirs.contains args.directory) = false
    · rw [if_pos h1] at herr
      simp [usageExit] at herr
    · rw [if_neg h1] at herr ⊢
      by_cases h2 : 1 ≤ args.quality ∧ args.quality ≤ 100
      · rw [if_neg (not_not_intro h2)] at herr ⊢
        by_cases h3 : (parseExts args.ext).isEmpty = true
        · rw [if_pos h3] at herr
          simp [usageExit] at herr
        · rw [if_neg h3] at herr ⊢
          simp [Sanitize.summary]
      · rw [if_pos h2] at herr
        simp [usageExit] at herr
  · intro args w herr
    simp only [StripConvert.main] at herr ⊢
    by_cases h1 : (w.dirs.contains args.directory) = false
    · rw [if_pos h1] at herr
      simp [usageExit] at herr
    · rw [if_neg h1] at herr ⊢
      by_cases h2 : 1 ≤ args.quality ∧ args.quality ≤ 100
      · rw [if_neg (not_not_intro h2)] at herr ⊢
        by_cases ht : w.exifToolOnPath = false
        · rw [if_pos ht] at herr
          simp [usageExit] at herr
        · rw [if_neg ht] at herr ⊢
          by_cases h3 : (parseExts args.ext).isEmpty = true
          · rw [if_pos h3] at herr
            simp [usageExit] at herr
          · rw [if_neg h3] at herr ⊢
            simp [StripConvert.summary]
      · rw [if_pos h2] at herr
        simp [usageExit] at herr
  · intro args w herr hexc
    simp only [StripMeta.main] at herr hexc ⊢
    by_cases h1 : (w.dirs.contains args.directory) = false
    · rw [if_pos h1] at herr
      simp [usageExit] at herr
    · rw [if_neg h1] at herr hexc ⊢
      by_cases h2 : w.exifToolOnPath = false
      · rw [if_pos h2] at herr
        simp [usageExit] at herr
      · rw [if_neg h2] at herr hexc ⊢
        by_cases h3 : (parseExts args.ext).isEmpty = true
        · rw [if_pos h3] at herr
          simp [usageExit] at herr
        · rw [if_neg h3] at herr hexc ⊢
          by_cases h4 : (discover args.directory (parseExts args.ext)
              args.recursive w.files).isEmpty = true
          · rw [if_pos h4] at hexc ⊢
            constructor
            · intro hd
              rfl
            · intro hne
              exfalso
              apply hne
              show discover args.directory (parseExts args.ext)
                args.recursive w.files = []
              cases hds : discover args.directory (parseExts args.ext)
                  args.recursive w.files with
              | nil => rfl
              | cons a l =>
                rw [hds] at h4
                simp [List.isEmpty] at h4
          · rw [if_neg h4] at hexc ⊢
            cases hl : (StripMeta.stripLoop args.directory args.keepDatetimes
                (discover args.directory (parseExts args.ext) args.recursive
                  w.files) w.files).2.2.2 with
            | some e =>
              exfalso
              rw [hl] at hexc
              simp at hexc
            | none =>
              constructor
              · intro hd
                exfalso
                have hd' : discover args.directory (parseExts args.ext)
                    args.recursive w.files = [] := hd
                rw [hd'] at h4
                simp [List.isEmpty] at h4
              · intro hne
                rfl

/-- Witness for the amended claim C2: the skip-counting run ends with the
"Done. Converted 1 file." shape, the other two convert variants on an empty
directory end with their zero-count shape, and a strip-only run over an
empty directory ends with the distinct "no files found" shape. -/
theorem claim_C2_witness :
    (HeicToJpg.main argsHeic wSkip).summaryLine =
      some "Done. Converted 1 file." ∧
    (Sanitize.main argsSanitize wEmpty).summaryLine =
      some "No matching files converted (review [ERROR] lines)." ∧
    (StripConvert.main argsSC wEmpty).summaryLine =
      some "No matching files processed — check [ERROR] messages above." ∧
    (StripMeta.main argsStrip wEmpty).summaryLine =
      some "No files with extensions heic, heif found in pics (recursive=False)." := by
  refine ⟨?_, ?_, ?_, ?_⟩
  · have h := claim_C2.1 argsHeic wSkip (by decide)
    rw [h]
    decide
  · have h := claim_C2.2.1 argsSanitize wEmpty (by decide)
    rw [h]
    decide
  · have h := claim_C2.2.2.1 argsSC wEmpty (by decide)
    rw [h]
    decide
  · have h := (claim_C2.2.2.2 argsStrip wEmpty (by decide) (by decide)).1
      (by decide)
    rw [h]
    decide

/-- Claim C4 is confirmed: in every convert variant with deletion enabled,
an escaping exception leaves the filesystem untouched with no unlink event,
and whenever the source was unlinked the JPEG destination exists afterwards
(for the strip-and-convert skip path, provided the source is not its own
destination). -/
theorem claim_C4 :
    ∀ (src : FsPath) (q : Int) (fs fs' : FS) (evs : List Ev) (e : PyExc),
      (HeicToJpg.convert src q true fs = (fs', evs, some e) →
        fs' = fs ∧ Ev.unlinkEv src ∉ evs) ∧
      (Sanitize.convert src q true fs = (fs', evs, some e) →
        fs' = fs ∧ Ev.unlinkEv src ∉ evs) ∧
      (StripConvert.convert_to_jpg src q true fs = (fs', evs, some e) →
        fs' = fs ∧ Ev.unlinkEv src ∉ evs) ∧
      (∀ exc, HeicToJpg.convert src q true fs = (fs', evs, exc) →
        Ev.unlinkEv src ∈ evs →
        FS.existsPath fs' (with_suffix src ".jpg") = true) ∧
      (∀ exc, Sanitize.convert src q true fs = (fs', evs, exc) →
        Ev.unlinkEv src ∈ evs →
        FS.existsPath fs' (with_suffix src ".jpg") = true) ∧
      (∀ exc, StripConvert.convert_to_jpg src q true fs = (fs', evs, exc) →
        Ev.unlinkEv src ∈ evs → ¬ with_suffix src ".jpg" = src →
        FS.existsPath fs' (with_suffix src ".jpg") = true) := by
  intro src q fs fs' evs e
  refine ⟨?_, ?_, ?_, ?_, ?_, ?_⟩
  · intro h
    obtain ⟨h1, h2⟩ := HeicToJpg.convert_err src q true fs fs' evs e h
    refine ⟨h1, ?_⟩
    rw [h2]
    simp
  · intro h
    obtain ⟨h1, h2⟩ := Sanitize.sanitize_convert_err src q true fs fs' evs e h
    refine ⟨h1, ?_⟩
    rw [h2]
    simp
  · intro h
    obtain ⟨h1, h2⟩ := StripConvert.convert_to_jpg_err src q true fs fs' evs e h
    refine ⟨h1, ?_⟩
    rw [h2]
    simp
  · intro exc h hmem
    exact HeicToJpg.convert_unlink_dst src q true fs fs' evs exc h hmem
  · intro exc h hmem
    exact Sanitize.sanitize_convert_unlink_dst src q true fs fs' evs exc h hmem
  · intro exc h hmem hne
    exact StripConvert.convert_to_jpg_unlink_dst src q true fs fs' evs exc h
      hmem hne

/-- Witness for claim C4: a corrupt source survives its failed conversion
untouched, and a successful delete-mode conversion leaves the destination on
disk. -/
theorem claim_C4_witness :
    ((HeicToJpg.convert srcA 90 true fsCorrupt).1 = fsCorrupt ∧
      Ev.unlinkEv srcA ∉ (HeicToJpg.convert srcA 90 true fsCorrupt).2.1) ∧
    FS.existsPath (HeicToJpg.convert srcA 90 true fsGood).1
      (with_suffix srcA ".jpg") = true := by
  constructor
  · exact (claim_C4 srcA 90 fsCorrupt
      (HeicToJpg.convert srcA 90 true fsCorrupt).1
      (HeicToJpg.convert srcA 90 true fsCorrupt).2.1
      (PyExc.otherExc "cannot identify image file")).1 (by decide)
  · exact (claim_C4 srcA 90 fsGood
      (HeicToJpg.convert srcA 90 true fsGood).1
      (HeicToJpg.convert srcA 90 true fsGood).2.1
      (PyExc.otherExc "")).2.2.2.1
      (HeicToJpg.convert srcA 90 true fsGood).2.2 rfl (by decide)

/-- Claim C6 is confirmed: with an existing destination every convert
variant performs no decode, no encode and no write — it only reports
`[SKIP]` (the strip-and-convert variant without deletion included) — and a
successful conversion followed by a second run of `convert` on the same
source yields exactly the `[SKIP]` report with the filesystem unchanged. -/
theorem claim_C6 :
    ∀ (src : FsPath) (q : Int) (del : Bool) (fs : FS),
      (FS.existsPath fs (with_suffix src ".jpg") = true →
        HeicToJpg.convert src q del fs =
          (fs, [Ev.outLine (Line.skipLine (with_suffix src ".jpg").name)],
           none) ∧
        Sanitize.convert src q del fs =
          (fs, [Ev.outLine (Line.skipLine (with_suffix src ".jpg").name)],
           none) ∧
        StripConvert.convert_to_jpg src q false fs =
          (fs, [Ev.outLine (Line.skipLine (with_suffix src ".jpg").name)],
           none)) ∧
      (∀ fs1 evs, HeicToJpg.convert src q del fs = (fs1, evs, none) →
        HeicToJpg.convert src q del fs1 =
          (fs1, [Ev.outLine (Line.skipLine (with_suffix src ".jpg").name)],
           none)) := by
  intro src q del fs
  constructor
  · intro h
    refine ⟨HeicToJpg.convert_skip src q del fs h,
      Sanitize.sanitize_convert_skip src q del fs h, ?_⟩
    have h3 := StripConvert.convert_to_jpg_skip src q false fs h
    simpa using h3
  · intro fs1 evs h
    have hdst := HeicToJpg.convert_none_dst src q del fs fs1 evs h
    exact HeicToJpg.convert_skip src q del fs1 hdst

/-- Witness for claim C6: with `a.jpg` already present the convert is a pure
`[SKIP]`, and converting `a.heic` twice in a row skips the second time. -/
theorem claim_C6_witness :
    HeicToJpg.convert srcA 90 false wSkip.files =
      (wSkip.files,
       [Ev.outLine (Line.skipLine (with_suffix srcA ".jpg").name)], none) ∧
    HeicToJpg.convert srcA 90 false (HeicToJpg.convert srcA 90 false fsGood).1 =
      ((HeicToJpg.convert srcA 90 false fsGood).1,
       [Ev.outLine (Line.skipLine (with_suffix srcA ".jpg").name)], none) := by
  constructor
  · exact ((claim_C6 srcA 90 false wSkip.files).1 (by decide)).1
  · exact (claim_C6 srcA 90 false fsGood).2
      (HeicToJpg.convert srcA 90 false fsGood).1
      (HeicToJpg.convert srcA 90 false fsGood).2.1 (by decide)

/-- Claim C7 is confirmed: in both quality-taking variants an out-of-range
quality makes the run stop with a usage error before anything is discovered,
traced, invoked or modified, and an in-range quality never trips the quality
validation. -/
theorem claim_C7 :
    ∀ (a1 : HeicToJpg.Args) (a3 : StripConvert.Args) (w : World),
      ((¬ (1 ≤ a1.quality ∧ a1.quality ≤ 100)) →
        (HeicToJpg.main a1 w).err.isSome = true ∧
        (HeicToJpg.main a1 w).trace = [] ∧
        (HeicToJpg.main a1 w).fs = w.files ∧
        (HeicToJpg.main a1 w).discovered = []) ∧
      ((1 ≤ a1.quality ∧ a1.quality ≤ 100) →
        (HeicToJpg.main a1 w).err ≠ some UsageError.qualityRange) ∧
      ((¬ (1 ≤ a3.quality ∧ a3.quality ≤ 100)) →
        (StripConvert.main a3 w).err.isSome = true ∧
        (StripConvert.main a3 w).trace = [] ∧
        (StripConvert.main a3 w).fs = w.files ∧
        (StripConvert.main a3 w).discovered = []) ∧
      ((1 ≤ a3.quality ∧ a3.quality ≤ 100) →
        (StripConvert.main a3 w).err ≠ some UsageError.qualityRange) := by
  intro a1 a3 w
  refine ⟨?_, ?_, ?_, ?_⟩
  · intro hq
    simp only [HeicToJpg.main]
    by_cases h1 : (w.dirs.contains a1.directory) = false
    · rw [if_pos h1]
      exact ⟨rfl, rfl, rfl, rfl⟩
    · rw [if_neg h1, if_pos hq]
      exact ⟨rfl, rfl, rfl, rfl⟩
  · intro hq
    simp only [HeicToJpg.main]
    by_cases h1 : (w.dirs.contains a1.directory) = false
    · rw [if_pos h1]
      simp [usageExit]
    · rw [if_neg h1, if_neg (not_not_intro hq)]
      by_cases h3 : (parseExts a1.ext).isEmpty = true
      · rw [if_pos h3]
        simp [usageExit]
      · rw [if_neg h3]
        simp
  · intro hq
    simp only [StripConvert.main]
    by_cases h1 : (w.dirs.contains a3.directory) = false
    · rw [if_pos h1]
      exact ⟨rfl, rfl, rfl, rfl⟩
    · rw [if_neg h1, if_pos hq]
      exact ⟨rfl, rfl, rfl, rfl⟩
  · intro hq
    simp only [StripConvert.main]
    by_cases h1 : (w.dirs.contains a3.directory) = false
    · rw [if_pos h1]
      simp [usageExit]
    · rw [if_neg h1, if_neg (not_not_intro hq)]
      by_cases h2 : w.exifToolOnPath = false
      · rw [if_pos h2]
        simp [usageExit]
      · rw [if_neg h2]
        by_cases h3 : (parseExts a3.ext).isEmpty = true
        · rw [if_pos h3]
          simp [usageExit]
        · rw [if_neg h3]
          simp

/-- `heic_to_jpg.py pics --quality 0`. -/
def argsHeicBadQ : HeicToJpg.Args := { argsHeic with quality := 0 }

/-- `heic_strip_and_convert_to_jpg.py pics --quality 101`. -/
def argsSCBadQ : StripConvert.Args := { argsSC with quality := 101 }

/-- Witness for claim C7: quality 0 and quality 101 are rejected up front in
the two variants; quality 90 passes the validation in both. -/
theorem claim_C7_witness :
    (HeicToJpg.main argsHeicBadQ wEmpty).err.isSome = true ∧
    (HeicToJpg.main argsHeic wEmpty).err ≠ some UsageError.qualityRange ∧
    (StripConvert.main argsSCBadQ wEmpty).err.isSome = true ∧
    (StripConvert.main argsSC wEmpty).err ≠ some UsageError.qualityRange := by
  refine ⟨?_, ?_, ?_, ?_⟩
  · exact ((claim_C7 argsHeicBadQ argsSC wEmpty).1 (by decide)).1
  · exact (claim_C7 argsHeic argsSC wEmpty).2.1 (by decide)
  · exact ((claim_C7 argsHeic argsSCBadQ wEmpty).2.2.1 (by decide)).1
  · exact (claim_C7 argsHeic argsSC wEmpty).2.2.2 (by decide)

/-- Claim C8 is confirmed: an `--ext` argument that normalizes to the empty
extension set makes the run stop with a usage error before anything is
discovered, traced, invoked or modified (shown for the two cited variants). -/
theorem claim_C8 :
    ∀ (a1 : HeicToJpg.Args) (a4 : StripMeta.Args) (w : World),
      (parseExts a1.ext = [] →
        (HeicToJpg.main a1 w).err.isSome = true ∧
        (HeicToJpg.main a1 w).trace = [] ∧
        (HeicToJpg.main a1 w).fs = w.files ∧
        (HeicToJpg.main a1 w).discovered = []) ∧
      (parseExts a4.ext = [] →
        (StripMeta.main a4 w).err.isSome = true ∧
        (StripMeta.main a4 w).trace = [] ∧
        (StripMeta.main a4 w).fs = w.files ∧
        (StripMeta.main a4 w).discovered = []) := by
  intro a1 a4 w
  constructor
  · intro he
    simp only [HeicToJpg.main]
    by_cases h1 : (w.dirs.contains a1.directory) = false
    · rw [if_pos h1]
      exact ⟨rfl, rfl, rfl, rfl⟩
    · rw [if_neg h1]
      by_cases h2 : 1 ≤ a1.quality ∧ a1.quality ≤ 100
      · rw [if_neg (not_not_intro h2), if_pos (by rw [he]; rfl)]
        exact ⟨rfl, rfl, rfl, rfl⟩
      · rw [if_pos h2]
        exact ⟨rfl, rfl, rfl, rfl⟩
  · intro he
    simp only [StripMeta.main]
    by_cases h1 : (w.dirs.contains a4.directory) = false
    · rw [if_pos h1]
      exact ⟨rfl, rfl, rfl, rfl⟩
    · rw [if_neg h1]
      by_cases h2 : w.exifToolOnPath = false
      · rw [if_pos h2]
        exact ⟨rfl, rfl, rfl, rfl⟩
      · rw [if_neg h2, if_pos (by rw [he]; rfl)]
        exact ⟨rfl, rfl, rfl, rfl⟩

/-- `heic_to_jpg.py pics --ext " , ,"`. -/
def argsHeicBadExt : HeicToJpg.Args := { argsHeic with ext := " , ," }

/-- `strip_heic_metadata.py pics --ext " , ,"`. -/
def argsStripBadExt : StripMeta.Args := { argsStrip with ext := " , ," }

/-- Witness for claim C8: the all-whitespace extension list normalizes to
the empty set and both variants stop with a usage error, the filesystem
untouched. -/
theorem claim_C8_witness :
    ((HeicToJpg.main argsHeicBadExt wSkip).err.isSome = true ∧
      (HeicToJpg.main argsHeicBadExt wSkip).fs = wSkip.files) ∧
    ((StripMeta.main argsStripBadExt wSkip).err.isSome = true ∧
      (StripMeta.main argsStripBadExt wSkip).discovered = []) := by
  constructor
  · have h := (claim_C8 argsHeicBadExt argsStripBadExt wSkip).1 (by decide)
    exact ⟨h.1, h.2.2.1⟩
  · have h := (claim_C8 argsHeicBadExt argsStripBadExt wSkip).2 (by decide)
    exact ⟨h.1, h.2.2.2⟩

/-- Claim C9 is confirmed: in the strip-and-convert variant the in-place
strip runs before the destination-exists check, so a file whose `.jpg`
already exists is still stripped of all metadata, reported `[SKIP]`, and —
with deletion on (the default) — unlinked afterwards even though nothing was
converted; with `--keep` the stripped source survives in place. -/
theorem claim_C9 :
    ∀ (f : FsPath) (im : ImageFile) (q : Int) (fs : FS),
      FS.lookup fs f = some im →
      im.stripRes = none →
      FS.existsPath fs (with_suffix f ".jpg") = true →
      (StripConvert.step q true f fs =
        (FS.eraseFile (FS.insertFile fs f { im with exif := [] }) f,
         [Ev.toolEv f,
          Ev.outLine (Line.skipLine (with_suffix f ".jpg").name),
          Ev.unlinkEv f], none) ∧
       FS.lookup (StripConvert.step q true f fs).1 f = none) ∧
      (StripConvert.step q false f fs =
        (FS.insertFile fs f { im with exif := [] },
         [Ev.toolEv f,
          Ev.outLine (Line.skipLine (with_suffix f ".jpg").name)], none) ∧
       FS.lookup (StripConvert.step q false f fs).1 f =
         some { im with exif := [] }) := by
  intro f im q fs hlook hstrip hdst
  have hsm : StripConvert.strip_all_metadata f fs =
      (FS.insertFile fs f { im with exif := [] }, [Ev.toolEv f], none) := by
    simp [StripConvert.strip_all_metadata, hlook, hstrip]
  have hdst1 : FS.existsPath (FS.insertFile fs f { im with exif := [] })
      (with_suffix f ".jpg") = true := by
    rw [FS.existsPath_insertFile]
    by_cases hfd : with_suffix f ".jpg" = f
    · rw [if_pos hfd]
    · rw [if_neg hfd]
      exact hdst
  constructor
  · have hskip := StripConvert.convert_to_jpg_skip f q true
      (FS.insertFile fs f { im with exif := [] }) hdst1
    have hstep : StripConvert.step q true f fs =
        (FS.eraseFile (FS.insertFile fs f { im with exif := [] }) f,
         [Ev.toolEv f,
          Ev.outLine (Line.skipLine (with_suffix f ".jpg").name),
          Ev.unlinkEv f], none) := by
      simp only [StripConvert.step, hsm]
      rw [hskip]
      rfl
    refine ⟨hstep, ?_⟩
    rw [hstep]
    rw [FS.lookup_eraseFile]
    simp
  · have hskip := StripConvert.convert_to_jpg_skip f q false
      (FS.insertFile fs f { im with exif := [] }) hdst1
    have hstep : StripConvert.step q false f fs =
        (FS.insertFile fs f { im with exif := [] },
         [Ev.toolEv f,
          Ev.outLine (Line.skipLine (with_suffix f ".jpg").name)], none) := by
      simp only [StripConvert.step, hsm]
      rw [hskip]
      rfl
    refine ⟨hstep, ?_⟩
    rw [hstep]
    rw [FS.lookup_insertFile]
    simp

/-- A filesystem for the C9 witness: a strippable HEIC whose destination
already exists. -/
def fs9 : FS := [(srcA, imStripOk), (dstA, imJpg)]

/-- Witness for claim C9: on a concrete already-converted pair, the default
run strips then unlinks the skipped source, while `--keep` leaves it in
place with its metadata emptied. -/
theorem claim_C9_witness :
    FS.lookup (StripConvert.step 90 true srcA fs9).1 srcA = none ∧
    FS.lookup (StripConvert.step 90 false srcA fs9).1 srcA =
      some { imStripOk with exif := [] } := by
  constructor
  · exact ((claim_C9 srcA imStripOk 90 fs9 (by decide) (by decide)
      (by decide)).1).2
  · exact ((claim_C9 srcA imStripOk 90 fs9 (by decide) (by decide)
      (by decide)).2).2

/-- Claim C10 is confirmed: the destination is the source with its final
extension replaced by ".jpg", so two files differing only in extension share
one destination; in a run over the two, at most one `[OK]` conversion line
is printed, and when the earlier file converted successfully the later one
is reported `[SKIP]` with the filesystem unchanged. -/
theorem claim_C10 :
    ∀ (par : List String) (stem s1 s2 : String) (q : Int) (del : Bool)
      (fs : FS),
      with_suffix ⟨par, stem, s1⟩ ".jpg" = with_suffix ⟨par, stem, s2⟩ ".jpg" ∧
      okCount (HeicToJpg.processLoop q del
        [⟨par, stem, s1⟩, ⟨par, stem, s2⟩] fs).2.1 ≤ 1 ∧
      (∀ fs1 evs,
        HeicToJpg.convert ⟨par, stem, s1⟩ q del fs = (fs1, evs, none) →
        HeicToJpg.convert ⟨par, stem, s2⟩ q del fs1 =
          (fs1, [Ev.outLine (Line.skipLine (stem ++ ".jpg"))], none)) := by
  intro par stem s1 s2 q del fs
  refine ⟨rfl, ?_, ?_⟩
  · have hcnt1 := (HeicToJpg.convert_counts ⟨par, stem, s1⟩ q del fs).2.2
    simp only [HeicToJpg.processLoop, runLoop]
    cases hc1 : (HeicToJpg.convert ⟨par, stem, s1⟩ q del fs).2.2 with
    | none =>
      have h1 : HeicToJpg.convert ⟨par, stem, s1⟩ q del fs =
          ((HeicToJpg.convert ⟨par, stem, s1⟩ q del fs).1,
           (HeicToJpg.convert ⟨par, stem, s1⟩ q del fs).2.1, none) := by
        rw [← hc1]
      have hdst := HeicToJpg.convert_none_dst _ q del fs _ _ h1
      have hskip := HeicToJpg.convert_skip ⟨par, stem, s2⟩ q del
        (HeicToJpg.convert ⟨par, stem, s1⟩ q del fs).1 hdst
      rw [hskip]
      simp only [okCount_append, okCount_cons, okCount_nil, Ev.isOkEv,
        List.append_nil, if_neg, Bool.false_eq_true, not_false_eq_true]
      omega
    | some e =>
      have h1 : HeicToJpg.convert ⟨par, stem, s1⟩ q del fs =
          ((HeicToJpg.convert ⟨par, stem, s1⟩ q del fs).1,
           (HeicToJpg.convert ⟨par, stem, s1⟩ q del fs).2.1, some e) := by
        rw [← hc1]
      obtain ⟨hfs, hevs⟩ := HeicToJpg.convert_err _ q del fs _ _ e h1
      have hcnt2 := (HeicToJpg.convert_counts ⟨par, stem, s2⟩ q del
        (HeicToJpg.convert ⟨par, stem, s1⟩ q del fs).1).2.2
      cases hc2 : (HeicToJpg.convert ⟨par, stem, s2⟩ q del
          (HeicToJpg.convert ⟨par, stem, s1⟩ q del fs).1).2.2 with
      | none =>
        rw [hevs]
        simp only [okCount_append, okCount_cons, okCount_nil, Ev.isOkEv,
          List.append_nil, if_neg, Bool.false_eq_true, not_false_eq_true]
        omega
      | some e2 =>
        rw [hevs]
        simp only [okCount_append, okCount_cons, okCount_nil, Ev.isOkEv,
          List.append_nil, if_neg, Bool.false_eq_true, not_false_eq_true]
        omega
  · intro fs1 evs h
    have hdst := HeicToJpg.convert_none_dst _ q del fs fs1 evs h
    exact HeicToJpg.convert_skip ⟨par, stem, s2⟩ q del fs1 hdst

/-- The HEIF sibling of `a.heic`. -/
def srcAheif : FsPath := { parent := ["pics"], stem := "a", suffix := ".heif" }

/-- A filesystem holding `a.heic` and `a.heif`, no destination yet. -/
def fs10 : FS := [(srcA, imGood), (srcAheif, imGood)]

/-- Witness for claim C10: after `a.heic` converts successfully, converting
`a.heif` is reported `[SKIP]` — they share the destination `a.jpg`. -/
theorem claim_C10_witness :
    HeicToJpg.convert srcAheif 90 false
      (HeicToJpg.convert srcA 90 false fs10).1 =
      ((HeicToJpg.convert srcA 90 false fs10).1,
       [Ev.outLine (Line.skipLine ("a" ++ ".jpg"))], none) := by
  exact (claim_C10 ["pics"] "a" ".heic" ".heif" 90 false fs10).2.2
    (HeicToJpg.convert srcA 90 false fs10).1
    (HeicToJpg.convert srcA 90 false fs10).2.1 (by decide)
